import Mathlib

/-!
Shallow embedding of the shift fanout/escalation service
(`app/models.py`, `app/database.py`, `app/api.py`).

Timestamps are modelled as `Nat` (seconds); the 10-minute escalation
window is 600 seconds.  The store is a key-ordered association list,
matching Python dict semantics (insertion order preserved, assignment
updates in place).  The intent classifier and the notification gateway
are external collaborators: the classified intent is an input, and
notification sends are recorded as events.
-/

namespace ShiftFanout

/-- `app/models.py` `Caregiver`. -/
structure Caregiver where
  id : String
  name : String
  role : String
  phone : String
deriving DecidableEq, Repr

/-- `app/models.py` `Shift`. -/
structure Shift where
  id : String
  organization_id : String
  role_required : String
  start_time : Nat
  end_time : Nat
  claimed : Bool := false
  claimed_by : Option String := none
  claimed_at : Option Nat := none
  fanout_started_at : Option Nat := none
  declined_caregiver_ids : List String := []
deriving DecidableEq, Repr

/-- A stored value: the database holds `Shift | Caregiver`. -/
inductive Entry where
  | shift (s : Shift)
  | caregiver (c : Caregiver)
deriving DecidableEq, Repr

/-- `InMemoryKeyValueDatabase[str, Shift | Caregiver]._store`:
a Python dict, modelled as an insertion-ordered association list. -/
abbrev DB := List (String × Entry)

/-- `put(key, value)`: dict assignment — update in place if the key is
present, else append. -/
def dbPut : DB → String → Entry → DB
  | [], k, v => [(k, v)]
  | (k', v') :: rest, k, v =>
      if k' = k then (k, v) :: rest else (k', v') :: dbPut rest k v

/-- `get(key)`. -/
def dbGet : DB → String → Option Entry
  | [], _ => none
  | (k', v) :: rest, k => if k' = k then some v else dbGet rest k

/-- `all()`: the values in insertion order. -/
def dbAll (db : DB) : List Entry := db.map Prod.snd

/-- `claim_shift_if_unclaimed(key, claimer_id, claimed_at)`
(`app/database.py`): returns `False` when the key is absent or the
value has no `claimed` attribute (a `Caregiver`) or is already claimed;
otherwise sets `claimed`, `claimed_by`, `claimed_at` and stores the
value back, returning `True`. -/
def claim_shift_if_unclaimed (db : DB) (key claimer_id : String)
    (claimed_at : Nat) : Bool × DB :=
  match dbGet db key with
  | none => (false, db)
  | some (Entry.caregiver _) => (false, db)
  | some (Entry.shift s) =>
      if s.claimed then (false, db)
      else
        (true, dbPut db key (Entry.shift
          { s with claimed := true, claimed_by := some claimer_id,
                   claimed_at := some claimed_at }))

/-- The key under which a shift is stored: `f"shift:{shift_id}"`. -/
def shiftKey (shift_id : String) : String := "shift:" ++ shift_id

/-- `database.get(f"shift:{shift_id}")` followed by the
`isinstance(shift, Shift)` guard. -/
def getShift (db : DB) (key : String) : Option Shift :=
  match dbGet db key with
  | some (Entry.shift s) => some s
  | _ => none

/-- `next((c for c in all_caregivers if isinstance(c, Caregiver) and
c.phone == message.from_), None)`. -/
def findCaregiverByPhone (db : DB) (phone : String) : Option Caregiver :=
  (dbAll db).findSome? fun e =>
    match e with
    | Entry.caregiver c => if c.phone = phone then some c else none
    | Entry.shift _ => none

/-- `[c for c in all_caregivers if isinstance(c, Caregiver) and
c.role == shift.role_required]`. -/
def qualifyingCaregivers (db : DB) (role_required : String) :
    List Caregiver :=
  (dbAll db).filterMap fun e =>
    match e with
    | Entry.caregiver c =>
        if c.role = role_required then some c else none
    | Entry.shift _ => none

/-- The round-1 text body: `Shift {id} available. Reply yes to accept.`
with the word yes quoted in the source (the quotes are written as
escapes below). -/
def smsMessage (shift_id : String) : String :=
  "Shift " ++ shift_id ++ " available. Reply \x27yes\x27 to accept."

/-- Observable side effects of a handler, in program order. -/
inductive Event where
  | putShift (key : String)
  | sms (phone : String) (message : String)
  | spawnEscalation (shift_id : String)
deriving DecidableEq, Repr

/-- Result of `POST /shifts/{shift_id}/fanout`. -/
inductive FanoutResult where
  | notFoundShift
  | already_fanout (fanout_started_at : Nat)
  | started (role_required : String) (qualifying_caregivers : Nat)
      (fanout_started_at : Nat)
deriving DecidableEq, Repr

/-- `fanout_shift` (`app/api.py`): look the shift up, return
`already_fanout` if `fanout_started_at` is set, otherwise select the
qualifying caregivers, set and persist `fanout_started_at`, send the
texts, and spawn the escalation task.  The returned event list records
the side effects in the order the code performs them. -/
def fanout_shift (db : DB) (shift_id : String) (now : Nat) :
    FanoutResult × DB × List Event :=
  match getShift db (shiftKey shift_id) with
  | none => (FanoutResult.notFoundShift, db, [])
  | some shift =>
      match shift.fanout_started_at with
      | some t => (FanoutResult.already_fanout t, db, [])
      | none =>
          let qualifying := qualifyingCaregivers db shift.role_required
          let shift' := { shift with fanout_started_at := some now }
          let db' := dbPut db (shiftKey shift_id) (Entry.shift shift')
          let events :=
            Event.putShift (shiftKey shift_id) ::
              (qualifying.map fun c =>
                Event.sms c.phone (smsMessage shift_id)) ++
              [Event.spawnEscalation shift_id]
          (FanoutResult.started shift.role_required qualifying.length now,
            db', events)

/-- The classified intent of an inbound message body (external
`app/intent.py` collaborator; an input to the handler). -/
inductive Intent where
  | ACCEPT
  | DECLINE
  | UNKNOWN
deriving DecidableEq, Repr

/-- Result of `POST /messages/inbound`. -/
inductive InboundResult where
  | notFoundCaregiver
  | notFoundShift
  | claimed (caregiver_id : String) (claimed_at : Nat)
  | already_claimed
  | not_claimed (intent : Intent)
deriving DecidableEq, Repr

/-- `handle_inbound_message` (`app/api.py`): resolve the caregiver by
phone, resolve the shift, then branch on the classified intent.  The
ACCEPT branch re-fetches the shift, rejects if claimed, otherwise sets
the claim fields and persists.  The DECLINE branch re-fetches and
appends the caregiver id to `declined_caregiver_ids` if absent.  There
is no suspension point between a re-fetch and its `put`. -/
def handle_inbound_message (db : DB) (from_ : String) (intent : Intent)
    (shift_id : String) (now : Nat) : InboundResult × DB :=
  match findCaregiverByPhone db from_ with
  | none => (InboundResult.notFoundCaregiver, db)
  | some caregiver =>
      match getShift db (shiftKey shift_id) with
      | none => (InboundResult.notFoundShift, db)
      | some _shift =>
          match intent with
          | Intent.ACCEPT =>
              match getShift db (shiftKey shift_id) with
              | none => (InboundResult.notFoundShift, db)
              | some current =>
                  if current.claimed then
                    (InboundResult.already_claimed, db)
                  else
                    (InboundResult.claimed caregiver.id now,
                      dbPut db (shiftKey shift_id) (Entry.shift
                        { current with claimed := true,
                                       claimed_by := some caregiver.id,
                                       claimed_at := some now }))
          | Intent.DECLINE =>
              match getShift db (shiftKey shift_id) with
              | none => (InboundResult.notFoundShift, db)
              | some current =>
                  if caregiver.id ∈ current.declined_caregiver_ids then
                    (InboundResult.not_claimed Intent.DECLINE, db)
                  else
                    (InboundResult.not_claimed Intent.DECLINE,
                      dbPut db (shiftKey shift_id) (Entry.shift
                        { current with declined_caregiver_ids :=
                            current.declined_caregiver_ids ++
                              [caregiver.id] }))
          | Intent.UNKNOWN =>
              (InboundResult.not_claimed Intent.UNKNOWN, db)

/-- Ten minutes, in seconds: `timedelta(minutes=10)`. -/
def tenMinutes : Nat := 600

/-- Terminal outcomes of `escalate_if_unfilled`. -/
inductive EscalationOutcome where
  | missingShift
  | fanoutNotStarted
  | deleted
  | superseded
  | fired
deriving DecidableEq, Repr

/-- The `while True` loop of `escalate_if_unfilled`, driven by the
sequence of (current time, database state) pairs the task observes at
its successive wakeups.  Each iteration re-reads the shift fresh,
exits if it is gone or claimed, and on reaching the deadline breaks
out of the loop; the body after the break is only a TODO comment, so
the fired branch performs no sends.  `none` means the observation
sequence ended while the task was still waiting. -/
def escalationLoop (shift_id : String) (target : Nat) :
    List (Nat × DB) → Option EscalationOutcome × List Event
  | [] => (none, [])
  | (t, db) :: rest =>
      match getShift db (shiftKey shift_id) with
      | none => (some EscalationOutcome.deleted, [])
      | some s =>
          if s.claimed then (some EscalationOutcome.superseded, [])
          else if target ≤ t then
            (some EscalationOutcome.fired, [])
          else escalationLoop shift_id target rest

/-- `escalate_if_unfilled` (`app/api.py`): read the shift once to get
`fanout_started_at`, compute the deadline ten minutes later, then poll
until the shift is claimed, deleted, or the deadline passes. -/
def escalate_if_unfilled (shift_id : String) (db0 : DB)
    (obs : List (Nat × DB)) : Option EscalationOutcome × List Event :=
  match getShift db0 (shiftKey shift_id) with
  | none => (some EscalationOutcome.missingShift, [])
  | some s =>
      match s.fanout_started_at with
      | none => (some EscalationOutcome.fanoutNotStarted, [])
      | some t0 => escalationLoop shift_id (t0 + tenMinutes) obs

/-- One state-mutating request against the service: either a fanout
trigger or an inbound message (with its classified intent). -/
inductive Op where
  | fanout (shift_id : String) (now : Nat)
  | inbound (from_ : String) (intent : Intent) (shift_id : String)
      (now : Nat)
deriving DecidableEq, Repr

/-- The effect of one request on the store. -/
def applyOp (db : DB) : Op → DB
  | Op.fanout sid now => (fanout_shift db sid now).2.1
  | Op.inbound f i sid now => (handle_inbound_message db f i sid now).2

/-- The effect of a request sequence on the store. -/
def applyOps (db : DB) (ops : List Op) : DB := ops.foldl applyOp db

/-- A sequence of accept attempts `(phone, now)`, run in order; the
handler has no suspension point between its claim check and its write,
so concurrent attempts serialize into some such order. -/
def runAccepts (db : DB) (shift_id : String) :
    List (String × Nat) → List InboundResult × DB
  | [] => ([], db)
  | (phone, now) :: rest =>
      let step := handle_inbound_message db phone Intent.ACCEPT shift_id now
      let tail := runAccepts step.2 shift_id rest
      (step.1 :: tail.1, tail.2)

/-! Concrete roster and shifts from `tests/test_shift_fanout.py`,
used for witnesses and concrete evaluations (times in seconds). -/

/-- Test caregiver alice (RN). -/
def alice : Caregiver :=
  { id := "alice-id", name := "Alice Ongwele", role := "RN",
    phone := "+15550001" }

/-- Test caregiver wei (LPN). -/
def wei : Caregiver :=
  { id := "wei-id", name := "Wei Yan", role := "LPN",
    phone := "+15550002" }

/-- Test caregiver barry (LPN). -/
def barry : Caregiver :=
  { id := "barry-id", name := "Barry Kozumikov", role := "LPN",
    phone := "+15550003" }

/-- Test RN shift. -/
def rnShift : Shift :=
  { id := "rn-shift-123", organization_id := "org-123",
    role_required := "RN", start_time := 28800, end_time := 57600 }

/-- Test LPN shift. -/
def lpnShift : Shift :=
  { id := "lpn-shift-456", organization_id := "org-123",
    role_required := "LPN", start_time := 57600, end_time := 86400 }

/-- The database as populated by the test fixture. -/
def testDB : DB :=
  [("caregiver:alice-id", Entry.caregiver alice),
   ("caregiver:wei-id", Entry.caregiver wei),
   ("caregiver:barry-id", Entry.caregiver barry),
   ("shift:rn-shift-123", Entry.shift rnShift),
   ("shift:lpn-shift-456", Entry.shift lpnShift)]

/-- The LPN shift after fanout at time 0 with wei having declined,
still unclaimed. -/
def declinedLpnShift : Shift :=
  { lpnShift with
      fanout_started_at := some 0
      declined_caregiver_ids := ["wei-id"] }

/-- The test database where the LPN shift has been fanned out at time 0
and wei has declined (still unclaimed): the state at the escalation
deadline in the declined-caregiver escalation scenario. -/
def escalationDB : DB :=
  [("caregiver:alice-id", Entry.caregiver alice),
   ("caregiver:wei-id", Entry.caregiver wei),
   ("caregiver:barry-id", Entry.caregiver barry),
   ("shift:rn-shift-123", Entry.shift rnShift),
   ("shift:lpn-shift-456", Entry.shift declinedLpnShift)]

/-- The LPN shift after fanout at time 0, claimed by wei at time 300
(five minutes in). -/
def claimedLpnShift : Shift :=
  { lpnShift with
      fanout_started_at := some 0
      claimed := true
      claimed_by := some "wei-id"
      claimed_at := some 300 }

/-- The test database where the LPN shift was fanned out at time 0 and
then claimed by wei at time 300. -/
def claimedDB : DB :=
  [("caregiver:alice-id", Entry.caregiver alice),
   ("caregiver:wei-id", Entry.caregiver wei),
   ("caregiver:barry-id", Entry.caregiver barry),
   ("shift:rn-shift-123", Entry.shift rnShift),
   ("shift:lpn-shift-456", Entry.shift claimedLpnShift)]

/-- Observer: is this effect a text send? -/
def isSms : Event → Bool
  | Event.sms _ _ => true
  | _ => false

/-- Observer: is this effect the spawning of an escalation task? -/
def isSpawn : Event → Bool
  | Event.spawnEscalation _ => true
  | _ => false

/-- The RN shift already claimed by alice while `fanout_started_at` is
still null (the shift was claimed before any fanout was triggered). -/
def preclaimedRnShift : Shift :=
  { rnShift with
      claimed := true
      claimed_by := some "alice-id"
      claimed_at := some 5 }

/-- The test database holding `preclaimedRnShift`. -/
def preclaimedDB : DB :=
  [("caregiver:alice-id", Entry.caregiver alice),
   ("caregiver:wei-id", Entry.caregiver wei),
   ("caregiver:barry-id", Entry.caregiver barry),
   ("shift:rn-shift-123", Entry.shift preclaimedRnShift),
   ("shift:lpn-shift-456", Entry.shift lpnShift)]

/-! Store lemmas. -/

theorem dbGet_dbPut_self (db : DB) (k : String) (v : Entry) :
    dbGet (dbPut db k v) k = some v := by
  induction db with
  | nil => simp [dbPut, dbGet]
  | cons hd tl ih =>
      obtain ⟨k', v'⟩ := hd
      by_cases h : k' = k
      · simp [dbPut, dbGet, h]
      · simp [dbPut, dbGet, h, ih]

theorem dbGet_dbPut_ne (db : DB) (k k₂ : String) (v : Entry)
    (h : k₂ ≠ k) : dbGet (dbPut db k v) k₂ = dbGet db k₂ := by
  have h' : ¬(k = k₂) := fun hh => h hh.symm
  induction db with
  | nil => simp [dbPut, dbGet, h']
  | cons hd tl ih =>
      obtain ⟨k', v'⟩ := hd
      by_cases hk : k' = k
      · subst hk
        simp [dbPut, dbGet, h']
      · by_cases hk2 : k' = k₂
        · subst hk2
          simp [dbPut, dbGet, hk]
        · simp [dbPut, dbGet, hk, hk2, ih]

theorem getShift_dbPut_self (db : DB) (k : String) (s : Shift) :
    getShift (dbPut db k (Entry.shift s)) k = some s := by
  simp [getShift, dbGet_dbPut_self]

theorem getShift_dbPut_ne (db : DB) (k k₂ : String) (v : Entry)
    (h : k₂ ≠ k) : getShift (dbPut db k v) k₂ = getShift db k₂ := by
  simp [getShift, dbGet_dbPut_ne db k k₂ v h]

theorem findCaregiverByPhone_cons (k : String) (e : Entry) (db : DB)
    (phone : String) :
    findCaregiverByPhone ((k, e) :: db) phone =
      match e with
      | Entry.caregiver c =>
          if c.phone = phone then some c
          else findCaregiverByPhone db phone
      | Entry.shift _ => findCaregiverByPhone db phone := by
  cases e with
  | shift s => simp [findCaregiverByPhone, dbAll, List.findSome?]
  | caregiver c =>
      by_cases h : c.phone = phone <;>
        simp [findCaregiverByPhone, dbAll, List.findSome?, h]

theorem findCaregiverByPhone_dbPut_shift (db : DB) (k : String)
    (s s' : Shift) (phone : String)
    (hs : dbGet db k = some (Entry.shift s)) :
    findCaregiverByPhone (dbPut db k (Entry.shift s')) phone =
      findCaregiverByPhone db phone := by
  induction db with
  | nil => simp [dbGet] at hs
  | cons hd tl ih =>
      obtain ⟨k₀, v₀⟩ := hd
      by_cases h : k₀ = k
      · subst h
        have hv : v₀ = Entry.shift s := by
          simpa [dbGet] using hs
        subst hv
        simp [dbPut, findCaregiverByPhone_cons]
      · have hs' : dbGet tl k = some (Entry.shift s) := by
          simpa [dbGet, h] using hs
        cases v₀ with
        | shift s₀ => simp [dbPut, h, findCaregiverByPhone_cons, ih hs']
        | caregiver c₀ =>
            by_cases hp : c₀.phone = phone <;>
              simp [dbPut, h, findCaregiverByPhone_cons, hp, ih hs']

/-- Whatever `getShift db k` returns, the underlying entry is a shift. -/
theorem dbGet_of_getShift (db : DB) (k : String) (s : Shift)
    (hs : getShift db k = some s) : dbGet db k = some (Entry.shift s) := by
  unfold getShift at hs
  cases h : dbGet db k with
  | none => rw [h] at hs; exact absurd hs (by simp)
  | some e =>
      cases e with
      | shift s₀ => rw [h] at hs; simp at hs; rw [hs]
      | caregiver c => rw [h] at hs; exact absurd hs (by simp)

/-- Effect of one request on an arbitrary stored shift: the claim
fields are stable once `claimed` is set, `fanout_started_at` is stable
once set, and `declined_caregiver_ids` only grows. -/
theorem applyOp_shift_invariants (db : DB) (op : Op) (k : String)
    (s : Shift) (hs : getShift db k = some s) :
    ∃ s', getShift (applyOp db op) k = some s' ∧
      (s.claimed = true → s'.claimed = true ∧
        s'.claimed_by = s.claimed_by ∧ s'.claimed_at = s.claimed_at) ∧
      (∀ t, s.fanout_started_at = some t →
        s'.fanout_started_at = some t) ∧
      (∃ ds, s'.declined_caregiver_ids =
        s.declined_caregiver_ids ++ ds) := by
  have triv : ∀ s₀ : Shift, (s₀.claimed = true → s₀.claimed = true ∧
      s₀.claimed_by = s₀.claimed_by ∧ s₀.claimed_at = s₀.claimed_at) ∧
      (∀ t, s₀.fanout_started_at = some t →
        s₀.fanout_started_at = some t) ∧
      (∃ ds, s₀.declined_caregiver_ids =
        s₀.declined_caregiver_ids ++ ds) :=
    fun s₀ => ⟨fun h => ⟨h, rfl, rfl⟩, fun _ ht => ht, ⟨[], by simp⟩⟩
  cases op with
  | fanout sid now =>
      cases hget : getShift db (shiftKey sid) with
      | none =>
          refine ⟨s, ?_, (triv s).1, (triv s).2.1, (triv s).2.2⟩
          simpa [applyOp, fanout_shift, hget] using hs
      | some shift =>
          cases hfs : shift.fanout_started_at with
          | some t0 =>
              refine ⟨s, ?_, (triv s).1, (triv s).2.1, (triv s).2.2⟩
              simpa [applyOp, fanout_shift, hget, hfs] using hs
          | none =>
              by_cases hk : k = shiftKey sid
              · subst hk
                have hss : shift = s := by
                  rw [hs] at hget
                  exact (Option.some.injEq _ _ ▸ hget).symm
                subst hss
                refine ⟨{ shift with fanout_started_at := some now },
                  ?_, ?_, ?_, ⟨[], by simp⟩⟩
                · simp [applyOp, fanout_shift, hget, hfs,
                    getShift_dbPut_self]
                · intro h
                  exact ⟨h, rfl, rfl⟩
                · intro t ht
                  rw [hfs] at ht
                  exact absurd ht (by simp)
              · refine ⟨s, ?_, (triv s).1, (triv s).2.1, (triv s).2.2⟩
                rw [show applyOp db (Op.fanout sid now) =
                    dbPut db (shiftKey sid) (Entry.shift
                      { shift with fanout_started_at := some now }) by
                  simp [applyOp, fanout_shift, hget, hfs]]
                rw [getShift_dbPut_ne _ _ _ _ hk]
                exact hs
  | inbound f i sid now =>
      cases hc : findCaregiverByPhone db f with
      | none =>
          refine ⟨s, ?_, (triv s).1, (triv s).2.1, (triv s).2.2⟩
          simpa [applyOp, handle_inbound_message, hc] using hs
      | some c =>
          cases hget : getShift db (shiftKey sid) with
          | none =>
              refine ⟨s, ?_, (triv s).1, (triv s).2.1, (triv s).2.2⟩
              simpa [applyOp, handle_inbound_message, hc, hget] using hs
          | some sh =>
              cases i with
              | ACCEPT =>
                  by_cases hcl : sh.claimed
                  · refine ⟨s, ?_, (triv s).1, (triv s).2.1,
                      (triv s).2.2⟩
                    simpa [applyOp, handle_inbound_message, hc, hget,
                      hcl] using hs
                  · by_cases hk : k = shiftKey sid
                    · subst hk
                      have hss : sh = s := by
                        rw [hs] at hget
                        exact (Option.some.injEq _ _ ▸ hget).symm
                      subst hss
                      refine ⟨{ sh with
                          claimed := true
                          claimed_by := some c.id
                          claimed_at := some now },
                        ?_, ?_, ?_, ⟨[], by simp⟩⟩
                      · simp [applyOp, handle_inbound_message, hc, hget,
                          hcl, getShift_dbPut_self]
                      · intro h
                        exact absurd h (by simpa using hcl)
                      · intro t ht
                        exact ht
                    · refine ⟨s, ?_, (triv s).1, (triv s).2.1,
                        (triv s).2.2⟩
                      rw [show applyOp db (Op.inbound f Intent.ACCEPT
                            sid now) =
                          dbPut db (shiftKey sid) (Entry.shift
                            { sh with
                                claimed := true
                                claimed_by := some c.id
                                claimed_at := some now }) by
                        simp [applyOp, handle_inbound_message, hc, hget,
                          hcl]]
                      rw [getShift_dbPut_ne _ _ _ _ hk]
                      exact hs
              | DECLINE =>
                  by_cases hd : c.id ∈ sh.declined_caregiver_ids
                  · refine ⟨s, ?_, (triv s).1, (triv s).2.1,
                      (triv s).2.2⟩
                    simpa [applyOp, handle_inbound_message, hc, hget,
                      hd] using hs
                  · by_cases hk : k = shiftKey sid
                    · subst hk
                      have hss : sh = s := by
                        rw [hs] at hget
                        exact (Option.some.injEq _ _ ▸ hget).symm
                      subst hss
                      refine ⟨{ sh with declined_caregiver_ids :=
                          sh.declined_caregiver_ids ++ [c.id] },
                        ?_, ?_, ?_, ⟨[c.id], rfl⟩⟩
                      · simp [applyOp, handle_inbound_message, hc, hget,
                          hd, getShift_dbPut_self]
                      · intro h
                        exact ⟨h, rfl, rfl⟩
                      · intro t ht
                        exact ht
                    · refine ⟨s, ?_, (triv s).1, (triv s).2.1,
                        (triv s).2.2⟩
                      rw [show applyOp db (Op.inbound f Intent.DECLINE
                            sid now) =
                          dbPut db (shiftKey sid) (Entry.shift
                            { sh with declined_caregiver_ids :=
                              sh.declined_caregiver_ids ++ [c.id] }) by
                        simp [applyOp, handle_inbound_message, hc, hget,
                          hd]]
                      rw [getShift_dbPut_ne _ _ _ _ hk]
                      exact hs
              | UNKNOWN =>
                  refine ⟨s, ?_, (triv s).1, (triv s).2.1,
                    (triv s).2.2⟩
                  simpa [applyOp, handle_inbound_message, hc, hget]
                    using hs

/-- The invariants of `applyOp_shift_invariants`, over a sequence of
requests. -/
theorem applyOps_shift_invariants (ops : List Op) (db : DB) (k : String)
    (s : Shift) (hs : getShift db k = some s) :
    ∃ s', getShift (applyOps db ops) k = some s' ∧
      (s.claimed = true → s'.claimed = true ∧
        s'.claimed_by = s.claimed_by ∧ s'.claimed_at = s.claimed_at) ∧
      (∀ t, s.fanout_started_at = some t →
        s'.fanout_started_at = some t) ∧
      (∃ ds, s'.declined_caregiver_ids =
        s.declined_caregiver_ids ++ ds) := by
  induction ops generalizing db s with
  | nil =>
      exact ⟨s, hs, fun h => ⟨h, rfl, rfl⟩, fun _ ht => ht,
        ⟨[], by simp⟩⟩
  | cons op rest ih =>
      obtain ⟨s₁, h₁, hcl₁, hfs₁, ds₁, hds₁⟩ :=
        applyOp_shift_invariants db op k s hs
      obtain ⟨s₂, h₂, hcl₂, hfs₂, ds₂, hds₂⟩ :=
        ih (applyOp db op) s₁ h₁
      refine ⟨s₂, by simpa [applyOps] using h₂, ?_, ?_,
        ⟨ds₁ ++ ds₂, by rw [hds₂, hds₁, List.append_assoc]⟩⟩
      · intro h
        obtain ⟨ha, hb, hc'⟩ := hcl₁ h
        obtain ⟨ha2, hb2, hc2⟩ := hcl₂ ha
        exact ⟨ha2, hb2.trans hb, hc2.trans hc'⟩
      · intro t ht
        exact hfs₂ t (hfs₁ t ht)

/-- The ACCEPT path on an unclaimed shift: record the claim and
persist. -/
theorem accept_unclaimed_eq (db : DB) (phone sid : String) (now : Nat)
    (c : Caregiver) (s : Shift)
    (hc : findCaregiverByPhone db phone = some c)
    (hs : getShift db (shiftKey sid) = some s)
    (hcl : s.claimed = false) :
    handle_inbound_message db phone Intent.ACCEPT sid now =
      (InboundResult.claimed c.id now,
       dbPut db (shiftKey sid) (Entry.shift
         { s with
             claimed := true
             claimed_by := some c.id
             claimed_at := some now })) := by
  simp [handle_inbound_message, hc, hs, hcl]

/-- The ACCEPT path on a claimed shift: reject, mutating nothing. -/
theorem accept_claimed_eq (db : DB) (phone sid : String) (now : Nat)
    (c : Caregiver) (s : Shift)
    (hc : findCaregiverByPhone db phone = some c)
    (hs : getShift db (shiftKey sid) = some s)
    (hcl : s.claimed = true) :
    handle_inbound_message db phone Intent.ACCEPT sid now =
      (InboundResult.already_claimed, db) := by
  simp [handle_inbound_message, hc, hs, hcl]

/-- Writing a shift entry back does not change caregiver lookup by
phone. -/
theorem findCaregiverByPhone_put_shift (db : DB) (k : String)
    (s s' : Shift) (phone : String)
    (hs : getShift db k = some s) :
    findCaregiverByPhone (dbPut db k (Entry.shift s')) phone =
      findCaregiverByPhone db phone :=
  findCaregiverByPhone_dbPut_shift db k s s' phone
    (dbGet_of_getShift db k s hs)

/-- Accept attempts against an already-claimed shift all fail and leave
the store untouched. -/
theorem runAccepts_claimed (sid : String)
    (attempts : List (String × Nat)) (db : DB) (s : Shift)
    (hs : getShift db (shiftKey sid) = some s) (hcl : s.claimed = true)
    (hres : ∀ pt ∈ attempts, (findCaregiverByPhone db pt.1).isSome) :
    runAccepts db sid attempts =
      (attempts.map fun _ => InboundResult.already_claimed, db) := by
  induction attempts with
  | nil => simp [runAccepts]
  | cons pt rest ih =>
      obtain ⟨p, t⟩ := pt
      have hp : (findCaregiverByPhone db p).isSome :=
        hres (p, t) (by simp)
      obtain ⟨c, hc⟩ := Option.isSome_iff_exists.mp hp
      have hstep := accept_claimed_eq db p sid t c s hc hs hcl
      simp [runAccepts, hstep,
        ih (fun pt2 hpt => hres pt2 (by simp [hpt]))]

/-- C1.  Single-winner claim: for any serialization of accept attempts
by caregivers against an unclaimed shift (the handler has no suspension
point between its claim check and its write, so concurrent attempts
serialize), exactly one attempt — the first — returns `claimed` and all
others return `already_claimed`; afterwards the shift's `claimed_by`
equals the winner's id and keeps that value under every further
request sequence.  Proved without assuming the caregivers are
distinct, which covers the claim's distinct-caregiver case a
fortiori. -/
theorem single_winner_claim (db : DB) (sid : String) (s : Shift)
    (p₀ : String) (t₀ : Nat) (rest : List (String × Nat))
    (c₀ : Caregiver)
    (hs : getShift db (shiftKey sid) = some s)
    (hunclaimed : s.claimed = false)
    (hc₀ : findCaregiverByPhone db p₀ = some c₀)
    (hres : ∀ pt ∈ rest, (findCaregiverByPhone db pt.1).isSome) :
    (runAccepts db sid ((p₀, t₀) :: rest)).1 =
      InboundResult.claimed c₀.id t₀ ::
        (rest.map fun _ => InboundResult.already_claimed) ∧
    ∀ ops, ∃ s', getShift
        (applyOps (runAccepts db sid ((p₀, t₀) :: rest)).2 ops)
        (shiftKey sid) = some s' ∧
      s'.claimed = true ∧ s'.claimed_by = some c₀.id := by
  have hstep := accept_unclaimed_eq db p₀ sid t₀ c₀ s hc₀ hs hunclaimed
  have hs₁ : getShift (dbPut db (shiftKey sid) (Entry.shift
      { s with
          claimed := true
          claimed_by := some c₀.id
          claimed_at := some t₀ })) (shiftKey sid) = some
      { s with
          claimed := true
          claimed_by := some c₀.id
          claimed_at := some t₀ } := getShift_dbPut_self _ _ _
  have hres₁ : ∀ pt ∈ rest,
      (findCaregiverByPhone (dbPut db (shiftKey sid) (Entry.shift
        { s with
            claimed := true
            claimed_by := some c₀.id
            claimed_at := some t₀ })) pt.1).isSome := by
    intro pt hpt
    rw [findCaregiverByPhone_put_shift db (shiftKey sid) s _ pt.1 hs]
    exact hres pt hpt
  have hrest := runAccepts_claimed sid rest _ _ hs₁ rfl hres₁
  have hrun : runAccepts db sid ((p₀, t₀) :: rest) =
      (InboundResult.claimed c₀.id t₀ ::
        (rest.map fun _ => InboundResult.already_claimed),
       dbPut db (shiftKey sid) (Entry.shift
        { s with
            claimed := true
            claimed_by := some c₀.id
            claimed_at := some t₀ })) := by
    simp [runAccepts, hstep, hrest]
  refine ⟨by rw [hrun], ?_⟩
  intro ops
  rw [hrun]
  obtain ⟨s', h', hcl', _, _⟩ :=
    applyOps_shift_invariants ops _ (shiftKey sid) _ hs₁
  obtain ⟨ha, hb, _⟩ := hcl' rfl
  exact ⟨s', h', ha, by rw [hb]⟩

/-- Witness for `single_winner_claim`: alice then wei accept the fresh
RN shift of the test roster; alice wins. -/
theorem single_winner_claim_witness :
    getShift testDB (shiftKey "rn-shift-123") = some rnShift ∧
    rnShift.claimed = false ∧
    findCaregiverByPhone testDB "+15550001" = some alice ∧
    (∀ pt ∈ [("+15550002", 20)],
      (findCaregiverByPhone testDB pt.1).isSome) ∧
    ((runAccepts testDB "rn-shift-123"
        (("+15550001", 10) :: [("+15550002", 20)])).1 =
      InboundResult.claimed alice.id 10 ::
        ([("+15550002", 20)].map fun _ =>
          InboundResult.already_claimed) ∧
    ∀ ops, ∃ s', getShift
        (applyOps (runAccepts testDB "rn-shift-123"
          (("+15550001", 10) :: [("+15550002", 20)])).2 ops)
        (shiftKey "rn-shift-123") = some s' ∧
      s'.claimed = true ∧ s'.claimed_by = some alice.id) :=
  ⟨by decide, by decide, by decide, by decide,
   single_winner_claim testDB "rn-shift-123" rnShift "+15550001" 10
     [("+15550002", 20)] alice (by decide) (by decide) (by decide)
     (by decide)⟩

/-- C2.  Refinement: on an existing shift, the ACCEPT path of the
inbound-message handler has the same effect on the store as the atomic
`claim_shift_if_unclaimed` primitive applied with the caregiver's id
and the current time, and the boolean result of the primitive
corresponds exactly to the `claimed` / `already_claimed` outcome. -/
theorem accept_refines_claim_if_unclaimed (db : DB)
    (from_ sid : String) (now : Nat) (c : Caregiver) (s : Shift)
    (hc : findCaregiverByPhone db from_ = some c)
    (hs : getShift db (shiftKey sid) = some s) :
    (handle_inbound_message db from_ Intent.ACCEPT sid now).2 =
      (claim_shift_if_unclaimed db (shiftKey sid) c.id now).2 ∧
    ((claim_shift_if_unclaimed db (shiftKey sid) c.id now).1 = true ↔
      (handle_inbound_message db from_ Intent.ACCEPT sid now).1 =
        InboundResult.claimed c.id now) ∧
    ((claim_shift_if_unclaimed db (shiftKey sid) c.id now).1 = false ↔
      (handle_inbound_message db from_ Intent.ACCEPT sid now).1 =
        InboundResult.already_claimed) := by
  have hdb := dbGet_of_getShift db (shiftKey sid) s hs
  by_cases hcl : s.claimed
  · simp [accept_claimed_eq db from_ sid now c s hc hs hcl,
      claim_shift_if_unclaimed, hdb, hcl]
  · simp [accept_unclaimed_eq db from_ sid now c s hc hs
      (by simpa using hcl), claim_shift_if_unclaimed, hdb, hcl]

/-- Witness for `accept_refines_claim_if_unclaimed`: alice accepting
the fresh RN shift of the test roster. -/
theorem accept_refines_claim_if_unclaimed_witness :
    findCaregiverByPhone testDB "+15550001" = some alice ∧
    getShift testDB (shiftKey "rn-shift-123") = some rnShift ∧
    ((handle_inbound_message testDB "+15550001" Intent.ACCEPT
        "rn-shift-123" 10).2 =
      (claim_shift_if_unclaimed testDB (shiftKey "rn-shift-123")
        alice.id 10).2 ∧
    ((claim_shift_if_unclaimed testDB (shiftKey "rn-shift-123")
        alice.id 10).1 = true ↔
      (handle_inbound_message testDB "+15550001" Intent.ACCEPT
        "rn-shift-123" 10).1 = InboundResult.claimed alice.id 10) ∧
    ((claim_shift_if_unclaimed testDB (shiftKey "rn-shift-123")
        alice.id 10).1 = false ↔
      (handle_inbound_message testDB "+15550001" Intent.ACCEPT
        "rn-shift-123" 10).1 = InboundResult.already_claimed)) :=
  ⟨by decide, by decide,
   accept_refines_claim_if_unclaimed testDB "+15550001" "rn-shift-123"
     10 alice rnShift (by decide) (by decide)⟩

/-- If the shift is present at every observation and claimed from some
time `tc` strictly before the deadline onwards, the escalation loop
never reaches its fired branch: it exits superseded, or is still
waiting when the observations end. -/
theorem escalationLoop_not_fired (sid : String) (target tc : Nat)
    (obs : List (Nat × DB)) (htc : tc < target)
    (hpresent : ∀ p ∈ obs, ∃ s, getShift p.2 (shiftKey sid) = some s)
    (hclaimed : ∀ p ∈ obs, tc ≤ p.1 → ∀ s,
      getShift p.2 (shiftKey sid) = some s → s.claimed = true) :
    (escalationLoop sid target obs).2 = [] ∧
    ((escalationLoop sid target obs).1 = none ∨
     (escalationLoop sid target obs).1 =
       some EscalationOutcome.superseded) := by
  induction obs with
  | nil => simp [escalationLoop]
  | cons p rest ih =>
      obtain ⟨t, db⟩ := p
      obtain ⟨s, hsp⟩ := hpresent (t, db) (by simp)
      by_cases hcl : s.claimed
      · simp [escalationLoop, hsp, hcl]
      · have ht : t < tc := by
          by_contra hge
          exact hcl (hclaimed (t, db) (by simp) (by omega) s hsp)
        have hlt : ¬ target ≤ t := by omega
        simpa [escalationLoop, hsp, hcl, hlt] using
          ih (fun q hq => hpresent q (by simp [hq]))
             (fun q hq hqt => hclaimed q (by simp [hq]) hqt)

/-- C4.  Claim suppresses escalation: if the shift is present
throughout and claimed from a time strictly before its deadline
(`fanout_started_at + 10 minutes`) onwards, the escalation task never
fires and places no voice call — it exits superseded (or is still
suspended when the observations end). -/
theorem claim_suppresses_escalation (sid : String) (db0 : DB)
    (s0 : Shift) (t0 tc : Nat) (obs : List (Nat × DB))
    (hs0 : getShift db0 (shiftKey sid) = some s0)
    (hf : s0.fanout_started_at = some t0)
    (htc : tc < t0 + tenMinutes)
    (hpresent : ∀ p ∈ obs, ∃ s, getShift p.2 (shiftKey sid) = some s)
    (hclaimed : ∀ p ∈ obs, tc ≤ p.1 → ∀ s,
      getShift p.2 (shiftKey sid) = some s → s.claimed = true) :
    (escalate_if_unfilled sid db0 obs).2 = [] ∧
    ((escalate_if_unfilled sid db0 obs).1 = none ∨
     (escalate_if_unfilled sid db0 obs).1 =
       some EscalationOutcome.superseded) := by
  have h := escalationLoop_not_fired sid (t0 + tenMinutes) tc obs htc
    hpresent hclaimed
  simpa [escalate_if_unfilled, hs0, hf] using h

/-- Witness for `claim_suppresses_escalation`: the LPN shift is claimed
by wei five minutes in; at the five- and ten-minute observations the
task exits superseded without ever firing. -/
theorem claim_suppresses_escalation_witness :
    getShift claimedDB (shiftKey "lpn-shift-456") =
      some claimedLpnShift ∧
    claimedLpnShift.fanout_started_at = some 0 ∧
    300 < 0 + tenMinutes ∧
    (∀ p ∈ [(300, claimedDB), (600, claimedDB)],
      ∃ s, getShift p.2 (shiftKey "lpn-shift-456") = some s) ∧
    (∀ p ∈ [(300, claimedDB), (600, claimedDB)], 300 ≤ p.1 → ∀ s,
      getShift p.2 (shiftKey "lpn-shift-456") = some s →
        s.claimed = true) ∧
    ((escalate_if_unfilled "lpn-shift-456" claimedDB
        [(300, claimedDB), (600, claimedDB)]).2 = [] ∧
    ((escalate_if_unfilled "lpn-shift-456" claimedDB
        [(300, claimedDB), (600, claimedDB)]).1 = none ∨
     (escalate_if_unfilled "lpn-shift-456" claimedDB
        [(300, claimedDB), (600, claimedDB)]).1 =
       some EscalationOutcome.superseded)) := by
  have hpresent : ∀ p ∈ [(300, claimedDB), (600, claimedDB)],
      ∃ s, getShift p.2 (shiftKey "lpn-shift-456") = some s := by
    intro p hp
    rcases List.mem_cons.mp hp with h | h
    · subst h; exact ⟨claimedLpnShift, by decide⟩
    · rcases List.mem_cons.mp h with h2 | h2
      · subst h2; exact ⟨claimedLpnShift, by decide⟩
      · exact absurd h2 (List.not_mem_nil _)
  have hclaimed : ∀ p ∈ [(300, claimedDB), (600, claimedDB)],
      300 ≤ p.1 → ∀ s,
      getShift p.2 (shiftKey "lpn-shift-456") = some s →
        s.claimed = true := by
    have heq : getShift claimedDB (shiftKey "lpn-shift-456") =
        some claimedLpnShift := by decide
    intro p hp _ s hsome
    rcases List.mem_cons.mp hp with h | h
    · subst h
      rw [heq] at hsome
      injection hsome with h'
      rw [← h']
      decide
    · rcases List.mem_cons.mp h with h2 | h2
      · subst h2
        rw [heq] at hsome
        injection hsome with h'
        rw [← h']
        decide
      · exact absurd h2 (List.not_mem_nil _)
  exact ⟨by decide, by decide, by decide, hpresent, hclaimed,
    claim_suppresses_escalation "lpn-shift-456" claimedDB
      claimedLpnShift 0 300 [(300, claimedDB), (600, claimedDB)]
      (by decide) (by decide) (by decide) hpresent hclaimed⟩

/-- C3 evaluation.  The declined-caregiver escalation scenario at the
deadline: the LPN shift is unclaimed, wei has declined, barry has not —
yet the escalation task merely reaches its fired branch, whose body in
the source is only a TODO comment, and places zero voice calls (the
spec and the repository's own test expect exactly one call, to
barry). -/
theorem escalation_fires_without_voice_calls :
    escalate_if_unfilled "lpn-shift-456" escalationDB
      [(600, escalationDB)] =
      (some EscalationOutcome.fired, []) ∧
    declinedLpnShift.claimed = false ∧
    barry.role = lpnShift.role_required ∧
    "barry-id" ∉ declinedLpnShift.declined_caregiver_ids := by
  refine ⟨by decide, by decide, by decide, by decide⟩

/-- C5 evaluation.  Invoking fanout twice on the test RN shift: the
first call returns `started`, sends one round-1 burst (a single text)
and spawns one escalation task; the second call returns
`already_fanout` carrying the original timestamp, sends nothing,
spawns nothing, and leaves the store untouched.  No effect of either
call registers the spawned task anywhere: the source keeps no
registry. -/
theorem fanout_twice_one_burst :
    (fanout_shift testDB "rn-shift-123" 100).1 =
      FanoutResult.started "RN" 1 100 ∧
    ((fanout_shift testDB "rn-shift-123" 100).2.2.filter isSms).length
      = 1 ∧
    ((fanout_shift testDB "rn-shift-123" 100).2.2.filter
      isSpawn).length = 1 ∧
    (fanout_shift ((fanout_shift testDB "rn-shift-123" 100).2.1)
      "rn-shift-123" 200).1 = FanoutResult.already_fanout 100 ∧
    (fanout_shift ((fanout_shift testDB "rn-shift-123" 100).2.1)
      "rn-shift-123" 200).2.1 =
      (fanout_shift testDB "rn-shift-123" 100).2.1 ∧
    (fanout_shift ((fanout_shift testDB "rn-shift-123" 100).2.1)
      "rn-shift-123" 200).2.2 = [] := by
  decide

/-- C6 evaluation.  The complete effect list of a successful fanout on
the test RN shift is exactly: persist the shift, send one text, spawn
the escalation task.  No effect registers the spawned task in any
registry and no cleanup hook is attached — the source spawns the task
fire-and-forget and has no task registry. -/
theorem fanout_effects_contain_no_registration :
    (fanout_shift testDB "rn-shift-123" 100).2.2 =
      [Event.putShift "shift:rn-shift-123",
       Event.sms "+15550001" (smsMessage "rn-shift-123"),
       Event.spawnEscalation "rn-shift-123"] := by
  decide

/-- C7.  On the started path the fanout's first effect is persisting
the updated shift — before any text send — and from then on
`fanout_started_at` equals the fanout time forever: it transitions
null→set at most once and never reverts, whatever requests follow. -/
theorem fanout_started_at_set_once_and_persist_first (db : DB)
    (sid : String) (now : Nat) (s : Shift)
    (hs : getShift db (shiftKey sid) = some s)
    (hnone : s.fanout_started_at = none) :
    ((fanout_shift db sid now).2.2).head? =
      some (Event.putShift (shiftKey sid)) ∧
    ∀ ops, ∃ s', getShift (applyOps (fanout_shift db sid now).2.1 ops)
        (shiftKey sid) = some s' ∧
      s'.fanout_started_at = some now := by
  have hdb : (fanout_shift db sid now).2.1 =
      dbPut db (shiftKey sid) (Entry.shift
        { s with fanout_started_at := some now }) := by
    simp [fanout_shift, hs, hnone]
  constructor
  · simp [fanout_shift, hs, hnone]
  · intro ops
    have hs1 : getShift (fanout_shift db sid now).2.1 (shiftKey sid) =
        some { s with fanout_started_at := some now } := by
      rw [hdb]
      exact getShift_dbPut_self _ _ _
    obtain ⟨s', h', _, hfs, _⟩ :=
      applyOps_shift_invariants ops _ (shiftKey sid) _ hs1
    exact ⟨s', h', hfs now rfl⟩

/-- Witness for `fanout_started_at_set_once_and_persist_first`: the
fresh RN shift of the test roster, fanned out at time 100. -/
theorem fanout_started_at_set_once_and_persist_first_witness :
    getShift testDB (shiftKey "rn-shift-123") = some rnShift ∧
    rnShift.fanout_started_at = none ∧
    (((fanout_shift testDB "rn-shift-123" 100).2.2).head? =
      some (Event.putShift (shiftKey "rn-shift-123")) ∧
    ∀ ops, ∃ s', getShift
        (applyOps (fanout_shift testDB "rn-shift-123" 100).2.1 ops)
        (shiftKey "rn-shift-123") = some s' ∧
      s'.fanout_started_at = some 100) :=
  ⟨by decide, by decide,
   fanout_started_at_set_once_and_persist_first testDB "rn-shift-123"
     100 rnShift (by decide) (by decide)⟩

/-- The DECLINE path when the caregiver already declined: no
mutation. -/
theorem decline_mem_eq (db : DB) (phone sid : String) (now : Nat)
    (c : Caregiver) (s : Shift)
    (hc : findCaregiverByPhone db phone = some c)
    (hs : getShift db (shiftKey sid) = some s)
    (hd : c.id ∈ s.declined_caregiver_ids) :
    handle_inbound_message db phone Intent.DECLINE sid now =
      (InboundResult.not_claimed Intent.DECLINE, db) := by
  simp [handle_inbound_message, hc, hs, hd]

/-- The DECLINE path when the caregiver has not declined yet: append
the id and persist. -/
theorem decline_not_mem_eq (db : DB) (phone sid : String) (now : Nat)
    (c : Caregiver) (s : Shift)
    (hc : findCaregiverByPhone db phone = some c)
    (hs : getShift db (shiftKey sid) = some s)
    (hd : c.id ∉ s.declined_caregiver_ids) :
    handle_inbound_message db phone Intent.DECLINE sid now =
      (InboundResult.not_claimed Intent.DECLINE,
       dbPut db (shiftKey sid) (Entry.shift
         { s with declined_caregiver_ids :=
             s.declined_caregiver_ids ++ [c.id] })) := by
  simp [handle_inbound_message, hc, hs, hd]

/-- C8.  Decline tracking has idempotent set semantics and is
independent of claim state: a decline appends the caregiver id only if
absent (so the list only grows, by that one id), the resulting count of
that id is exactly one when it was absent and unchanged when present,
the claim fields are untouched, and a second decline by the same
caregiver is a no-op on the store. -/
theorem decline_idempotent_set_semantics (db : DB)
    (from_ sid : String) (now now₂ : Nat) (c : Caregiver) (s : Shift)
    (hc : findCaregiverByPhone db from_ = some c)
    (hs : getShift db (shiftKey sid) = some s) :
    (handle_inbound_message db from_ Intent.DECLINE sid now).1 =
      InboundResult.not_claimed Intent.DECLINE ∧
    (∃ s₁, getShift
        (handle_inbound_message db from_ Intent.DECLINE sid now).2
        (shiftKey sid) = some s₁ ∧
      s₁.claimed = s.claimed ∧ s₁.claimed_by = s.claimed_by ∧
      s₁.claimed_at = s.claimed_at ∧
      c.id ∈ s₁.declined_caregiver_ids ∧
      (c.id ∉ s.declined_caregiver_ids →
        s₁.declined_caregiver_ids =
          s.declined_caregiver_ids ++ [c.id]) ∧
      (c.id ∈ s.declined_caregiver_ids →
        s₁.declined_caregiver_ids = s.declined_caregiver_ids) ∧
      s₁.declined_caregiver_ids.count c.id =
        max (s.declined_caregiver_ids.count c.id) 1) ∧
    handle_inbound_message
        (handle_inbound_message db from_ Intent.DECLINE sid now).2
        from_ Intent.DECLINE sid now₂ =
      (InboundResult.not_claimed Intent.DECLINE,
       (handle_inbound_message db from_ Intent.DECLINE sid now).2) := by
  by_cases hd : c.id ∈ s.declined_caregiver_ids
  · have heq := decline_mem_eq db from_ sid now c s hc hs hd
    have hcount : s.declined_caregiver_ids.count c.id =
        max (s.declined_caregiver_ids.count c.id) 1 := by
      have hpos : s.declined_caregiver_ids.count c.id ≠ 0 := by
        intro h0
        exact (List.count_eq_zero.mp h0) hd
      omega
    refine ⟨by rw [heq], ⟨s, ?_, rfl, rfl, rfl, hd,
      fun h => absurd hd h, fun _ => rfl, hcount⟩, ?_⟩
    · rw [heq]
      exact hs
    · rw [heq]
      exact decline_mem_eq db from_ sid now₂ c s hc hs hd
  · have heq := decline_not_mem_eq db from_ sid now c s hc hs hd
    have hs₁ : getShift
        (handle_inbound_message db from_ Intent.DECLINE sid now).2
        (shiftKey sid) = some
        { s with declined_caregiver_ids :=
            s.declined_caregiver_ids ++ [c.id] } := by
      rw [heq]
      exact getShift_dbPut_self _ _ _
    have hc₁ : findCaregiverByPhone
        (handle_inbound_message db from_ Intent.DECLINE sid now).2
        from_ = some c := by
      rw [heq, findCaregiverByPhone_put_shift db (shiftKey sid) s _
        from_ hs]
      exact hc
    have hcount : (s.declined_caregiver_ids ++ [c.id]).count c.id =
        max (s.declined_caregiver_ids.count c.id) 1 := by
      rw [List.count_append, List.count_eq_zero.mpr hd]
      simp
    refine ⟨by rw [heq], ⟨{ s with declined_caregiver_ids :=
        s.declined_caregiver_ids ++ [c.id] }, hs₁, rfl, rfl, rfl,
      by simp, fun _ => rfl, fun h => absurd h hd, hcount⟩, ?_⟩
    exact decline_mem_eq _ from_ sid now₂ c _ hc₁ hs₁ (by simp)

/-- Witness for `decline_idempotent_set_semantics`: wei declines the
fresh LPN shift of the test roster (twice). -/
theorem decline_idempotent_set_semantics_witness :
    findCaregiverByPhone testDB "+15550002" = some wei ∧
    getShift testDB (shiftKey "lpn-shift-456") = some lpnShift ∧
    ((handle_inbound_message testDB "+15550002" Intent.DECLINE
        "lpn-shift-456" 50).1 =
      InboundResult.not_claimed Intent.DECLINE ∧
    (∃ s₁, getShift
        (handle_inbound_message testDB "+15550002" Intent.DECLINE
          "lpn-shift-456" 50).2 (shiftKey "lpn-shift-456") = some s₁ ∧
      s₁.claimed = lpnShift.claimed ∧
      s₁.claimed_by = lpnShift.claimed_by ∧
      s₁.claimed_at = lpnShift.claimed_at ∧
      wei.id ∈ s₁.declined_caregiver_ids ∧
      (wei.id ∉ lpnShift.declined_caregiver_ids →
        s₁.declined_caregiver_ids =
          lpnShift.declined_caregiver_ids ++ [wei.id]) ∧
      (wei.id ∈ lpnShift.declined_caregiver_ids →
        s₁.declined_caregiver_ids =
          lpnShift.declined_caregiver_ids) ∧
      s₁.declined_caregiver_ids.count wei.id =
        max (lpnShift.declined_caregiver_ids.count wei.id) 1) ∧
    handle_inbound_message
        (handle_inbound_message testDB "+15550002" Intent.DECLINE
          "lpn-shift-456" 50).2 "+15550002" Intent.DECLINE
        "lpn-shift-456" 60 =
      (InboundResult.not_claimed Intent.DECLINE,
       (handle_inbound_message testDB "+15550002" Intent.DECLINE
          "lpn-shift-456" 50).2)) :=
  ⟨by decide, by decide,
   decline_idempotent_set_semantics testDB "+15550002" "lpn-shift-456"
     50 60 wei lpnShift (by decide) (by decide)⟩

/-- A list of text-send effects passes the `isSms` filter
unchanged. -/
theorem filter_isSms_map_sms (qs : List Caregiver) (sid : String) :
    ((qs.map fun c => Event.sms c.phone (smsMessage sid)).filter isSms)
      = qs.map fun c => Event.sms c.phone (smsMessage sid) := by
  induction qs with
  | nil => simp
  | cons c rest ih => simp [isSms, ih]

/-- Membership in the qualifying-caregiver selection: exactly the
caregivers in the store whose role matches. -/
theorem mem_qualifyingCaregivers (db : DB) (role : String)
    (c : Caregiver) :
    c ∈ qualifyingCaregivers db role ↔
      Entry.caregiver c ∈ dbAll db ∧ c.role = role := by
  simp only [qualifyingCaregivers, List.mem_filterMap]
  constructor
  · rintro ⟨e, he, hf⟩
    cases e with
    | shift s => simp at hf
    | caregiver c' =>
        by_cases hr : c'.role = role
        · simp only [hr, if_pos] at hf
          injection hf with hf
          subst hf
          exact ⟨he, hr⟩
        · simp [hr] at hf
  · rintro ⟨he, hr⟩
    exact ⟨Entry.caregiver c, he, by simp [hr]⟩

/-- C9.  Round-1 selection is exactly by role: a successful fanout
sends one text, with the identical message, to each qualifying
caregiver — and the qualifying caregivers are exactly the caregivers
in the store whose role equals the shift's `role_required`. -/
theorem round_one_selection_by_role (db : DB) (sid : String)
    (now : Nat) (s : Shift)
    (hs : getShift db (shiftKey sid) = some s)
    (hnone : s.fanout_started_at = none) :
    ((fanout_shift db sid now).2.2.filter isSms) =
      ((qualifyingCaregivers db s.role_required).map fun c =>
        Event.sms c.phone (smsMessage sid)) ∧
    ∀ c : Caregiver, c ∈ qualifyingCaregivers db s.role_required ↔
      Entry.caregiver c ∈ dbAll db ∧ c.role = s.role_required := by
  constructor
  · have hev : (fanout_shift db sid now).2.2 =
        Event.putShift (shiftKey sid) ::
          ((qualifyingCaregivers db s.role_required).map fun c =>
            Event.sms c.phone (smsMessage sid)) ++
          [Event.spawnEscalation sid] := by
      simp [fanout_shift, hs, hnone]
    rw [hev]
    rw [show (Event.putShift (shiftKey sid) ::
        ((qualifyingCaregivers db s.role_required).map fun c =>
          Event.sms c.phone (smsMessage sid)) ++
        [Event.spawnEscalation sid]).filter isSms =
        (((qualifyingCaregivers db s.role_required).map fun c =>
          Event.sms c.phone (smsMessage sid)).filter isSms) ++
          ([Event.spawnEscalation sid].filter isSms) by
      simp [isSms, List.filter_append]]
    rw [filter_isSms_map_sms]
    simp [isSms]
  · exact fun c => mem_qualifyingCaregivers db s.role_required c

/-- Witness for `round_one_selection_by_role`: fanout of the LPN shift
texts exactly wei and barry. -/
theorem round_one_selection_by_role_witness :
    getShift testDB (shiftKey "lpn-shift-456") = some lpnShift ∧
    lpnShift.fanout_started_at = none ∧
    (((fanout_shift testDB "lpn-shift-456" 100).2.2.filter isSms) =
      ((qualifyingCaregivers testDB lpnShift.role_required).map
        fun c => Event.sms c.phone (smsMessage "lpn-shift-456")) ∧
    ∀ c : Caregiver,
      c ∈ qualifyingCaregivers testDB lpnShift.role_required ↔
        Entry.caregiver c ∈ dbAll testDB ∧
          c.role = lpnShift.role_required) ∧
    qualifyingCaregivers testDB lpnShift.role_required =
      [wei, barry] ∧
    ((fanout_shift testDB "lpn-shift-456" 100).2.2.filter isSms) =
      [Event.sms "+15550002" (smsMessage "lpn-shift-456"),
       Event.sms "+15550003" (smsMessage "lpn-shift-456")] :=
  ⟨by decide, by decide,
   round_one_selection_by_role testDB "lpn-shift-456" 100 lpnShift
     (by decide) (by decide),
   by decide, by decide⟩

/-- C10.  The fanout never consults the shift's claimed status: on an
already-claimed shift whose `fanout_started_at` is still null it
nevertheless returns `started`, persists the timestamp, sends the
round-1 texts to all qualifying caregivers and spawns the escalation
task. -/
theorem fanout_ignores_claimed (db : DB) (sid : String) (now : Nat)
    (s : Shift)
    (hs : getShift db (shiftKey sid) = some s)
    (hnone : s.fanout_started_at = none)
    (hclaimed : s.claimed = true) :
    fanout_shift db sid now =
      (FanoutResult.started s.role_required
        (qualifyingCaregivers db s.role_required).length now,
       dbPut db (shiftKey sid) (Entry.shift
         { s with fanout_started_at := some now }),
       Event.putShift (shiftKey sid) ::
         ((qualifyingCaregivers db s.role_required).map fun c =>
           Event.sms c.phone (smsMessage sid)) ++
         [Event.spawnEscalation sid]) := by
  simp [fanout_shift, hs, hnone]

/-- Witness for `fanout_ignores_claimed`: the RN shift claimed by
alice before any fanout still gets a full `started` fanout. -/
theorem fanout_ignores_claimed_witness :
    getShift preclaimedDB (shiftKey "rn-shift-123") =
      some preclaimedRnShift ∧
    preclaimedRnShift.fanout_started_at = none ∧
    preclaimedRnShift.claimed = true ∧
    fanout_shift preclaimedDB "rn-shift-123" 100 =
      (FanoutResult.started preclaimedRnShift.role_required
        (qualifyingCaregivers preclaimedDB
          preclaimedRnShift.role_required).length 100,
       dbPut preclaimedDB (shiftKey "rn-shift-123") (Entry.shift
         { preclaimedRnShift with fanout_started_at := some 100 }),
       Event.putShift (shiftKey "rn-shift-123") ::
         ((qualifyingCaregivers preclaimedDB
            preclaimedRnShift.role_required).map fun c =>
           Event.sms c.phone (smsMessage "rn-shift-123")) ++
         [Event.spawnEscalation "rn-shift-123"]) :=
  ⟨by decide, by decide, by decide,
   fanout_ignores_claimed preclaimedDB "rn-shift-123" 100
     preclaimedRnShift (by decide) (by decide) (by decide)⟩

end ShiftFanout
